import Mathlib

/-!
Shallow embedding of the arbz perpetual-futures venue.

Sources embedded here:
* `src/engine/src/types.rs`, `src/engine/src/risk.rs` — shared data model and
  risk helpers (namespace-free definitions below).
* `src/contracts/zero_day_futures/src/lib.rs` — the authoritative on-chain
  contract (`namespace ZDF`).
* `src/offchain/matcher_api/src/main.rs` — the off-chain mirror: order
  admission, the websocket matching sweep, signed-order submission and the
  read-model snapshot (`namespace MX`).

Modelling conventions: `i128` is embedded as `Int` and `u128`/`u64`/`u32` as
`Nat`; Rust's signed division (truncation toward zero) is `Int.tdiv`, and
unsigned division is `Nat` division.  Trader addresses and ids are `Nat`.
Storage maps accessed through `get(..).unwrap_or_default()` become total
functions with default `0`; maps with an existence check become
`Nat → Option _`.  A Rust arithmetic panic (division by zero in
`apply_fill`) is modelled as `Option`/`CallResult.panic`, and a contract
error return as `CallResult.err` — both leave the caller-visible state
unchanged, matching transaction-revert semantics.
-/

/-- Order side, from `engine/src/types.rs` (`enum Side`). -/
inductive Side where
  | buy
  | sell
  deriving DecidableEq, Repr

/-- Resting order, from `engine/src/types.rs` (`struct Order`). -/
structure Order where
  trader : Nat
  side : Side
  price : Int
  qty : Int
  leverage : Nat
  ts : Nat
  expiry_ts : Nat
  is_limit : Bool
  deriving DecidableEq, Repr

/-- Per-trader position, from `engine/src/types.rs` (`struct Position`). -/
structure Position where
  trader : Nat
  entry_price : Int
  qty : Int
  leverage : Nat
  margin : Int
  opened_ts : Nat
  expiry_ts : Nat
  deriving DecidableEq, Repr

/-- Per-trader balances, from `engine/src/types.rs` (`struct Account`). -/
structure Account where
  collateral : Int
  locked_margin : Int
  deriving DecidableEq, Repr

/-- Oracle snapshot, from `engine/src/types.rs` (`struct OraclePrice`). -/
structure OraclePrice where
  price : Int
  conf : Nat
  ts : Nat
  deriving DecidableEq, Repr

/-- Initial margin, from `engine/src/risk.rs::required_margin`:
`notional = qty.abs() * price.abs(); notional / (leverage as i128).max(1)`. -/
def required_margin (qty price : Int) (leverage : Nat) : Int :=
  let notional := |qty| * |price|
  Int.tdiv notional (max (leverage : Int) 1)

/-- Unrealized PnL, from `engine/src/risk.rs::pnl_unrealized`:
`(mark.price - entry) * qty.signum() * qty.abs()`. -/
def pnl_unrealized (pos : Position) (mark : OraclePrice) : Int :=
  let diff := mark.price - pos.entry_price
  let pnl_per_unit := diff * pos.qty.sign
  pnl_per_unit * |pos.qty|

namespace ZDF

/-- Stored order, from `contracts/zero_day_futures/src/lib.rs::OrderData`. -/
structure COrder where
  trader : Nat
  side : Side
  price : Int
  qty : Int
  leverage : Nat
  expiry_ts : Nat
  deriving DecidableEq, Repr

/-- Contract events, from the `SolidityEvent` declarations in
`contracts/zero_day_futures/src/lib.rs`. -/
inductive CEvent where
  | depositEv (trader : Nat) (amount : Nat)
  | withdrawEv (trader : Nat) (amount : Nat)
  | orderPlaced (trader : Nat) (id : Nat)
  | tradeEv (buy sell : Nat) (price qty : Int)
  | liquidationEv (trader : Nat) (mark_price : Int)
  | feeAccrued (maker_fee taker_fee : Nat)
  | feesWithdrawn (dst : Nat) (amount : Nat)
  deriving DecidableEq, Repr

/-- Error kinds, from `contracts/zero_day_futures/src/lib.rs::ContractError`. -/
inductive ContractError where
  | InsufficientCollateral
  | OrderExpired
  | NotOwner
  | Paused
  deriving DecidableEq, Repr

/-- Contract storage, from the `#[storage] struct ZeroDayFutures` fields.
The owner address and the oracle maps are omitted: no claim touches them. -/
structure ContractState where
  paused : Bool
  next_order_id : Nat
  collateral : Nat → Nat
  locked_margin : Nat → Nat
  orders : Nat → Option COrder
  position_qty : Nat → Int
  position_entry : Nat → Int
  default_expiry_secs : Nat
  liquidation_threshold_bps : Nat
  maker_fee_bps : Nat
  taker_fee_bps : Nat
  accrued_fees : Nat
  events : List CEvent

/-- Point update of a `Nat`-valued storage map (`StorageMap::insert`). -/
def setNat (m : Nat → Nat) (k v : Nat) : Nat → Nat :=
  fun k' => if k' = k then v else m k'

/-- Point update of an `Int`-valued storage map (`StorageMap::insert`). -/
def setInt (m : Nat → Int) (k : Nat) (v : Int) : Nat → Int :=
  fun k' => if k' = k then v else m k'

/-- Point update of the orders map (`insert`/`remove`). -/
def setOrder (m : Nat → Option COrder) (k : Nat) (v : Option COrder) :
    Nat → Option COrder :=
  fun k' => if k' = k then v else m k'

/-- Outcome of an external contract call: normal return, error revert, or an
arithmetic panic (which also reverts the transaction). -/
inductive CallResult where
  | ok (st : ContractState)
  | err (e : ContractError)
  | panic

/-- The state a call leaves behind: errors and panics revert. -/
def commit (st : ContractState) : CallResult → ContractState
  | .ok st' => st'
  | .err _ => st
  | .panic => st

/-- From `lib.rs::deposit`: credit `msg::value` to the sender unconditionally
(after the pause check). -/
def deposit (st : ContractState) (sender amount : Nat) : CallResult :=
  if st.paused then .err .Paused else
  let bal := st.collateral sender
  .ok { st with collateral := setNat st.collateral sender (bal + amount),
                events := st.events ++ [.depositEv sender amount] }

/-- From `lib.rs::withdraw`: reject if `bal < amount + locked`, else debit. -/
def withdraw (st : ContractState) (sender amount : Nat) : CallResult :=
  if st.paused then .err .Paused else
  let bal := st.collateral sender
  let locked := st.locked_margin sender
  if bal < amount + locked then .err .InsufficientCollateral else
  .ok { st with collateral := setNat st.collateral sender (bal - amount),
                events := st.events ++ [.withdrawEv sender amount] }

/-- From `lib.rs::place_order`: require `free = collateral - locked ≥ margin`
(`u128` subtraction, well-defined under the solvency invariant), lock the
margin, store the order under a fresh id. -/
def place_order (st : ContractState) (trader side : Nat) (price qty : Int)
    (leverage : Nat) (now : Nat) : CallResult :=
  if st.paused then .err .Paused else
  let expiry := now + st.default_expiry_secs
  let margin : Nat := (required_margin qty price leverage).toNat
  let free := st.collateral trader - st.locked_margin trader
  if free < margin then .err .InsufficientCollateral else
  let locked := st.locked_margin trader
  let id := st.next_order_id + 1
  let data : COrder :=
    { trader := trader, side := if side = 0 then Side.buy else Side.sell,
      price := price, qty := qty, leverage := leverage, expiry_ts := expiry }
  .ok { st with locked_margin := setNat st.locked_margin trader (locked + margin),
                next_order_id := id,
                orders := setOrder st.orders id (some data),
                events := st.events ++ [.orderPlaced trader id] }

/-- From `lib.rs::apply_fill`: net the fill into the position; the entry-price
update divides by `pos_qty + qty` when `pos_qty ≠ 0`, which panics (`none`)
when that divisor is zero. -/
def apply_fill (st : ContractState) (order : COrder) (price qty : Int) :
    Option ContractState :=
  let pos_qty := st.position_qty order.trader
  let entry := st.position_entry order.trader
  let new_qty := if order.side = Side.buy then pos_qty + qty else pos_qty - qty
  if pos_qty = 0 then
    some { st with position_qty := setInt st.position_qty order.trader new_qty,
                   position_entry := setInt st.position_entry order.trader price }
  else if pos_qty + qty = 0 then none
  else
    some { st with position_qty := setInt st.position_qty order.trader new_qty,
                   position_entry := setInt st.position_entry order.trader
                     (Int.tdiv (entry * pos_qty + price * qty) (pos_qty + qty)) }

/-- From `lib.rs::match_orders`: fetch both orders (missing ⇒ `OrderExpired`),
reject if either is expired, apply both fills, accrue fees to the venue
counter, emit `FeeAccrued` and `TradeEvent`, and remove both orders.  The
`maker_is_buy` flag is computed exactly as in the source and is unused there
too. -/
def match_orders (st : ContractState) (buy_id sell_id : Nat) (price : Int)
    (now : Nat) : CallResult :=
  if st.paused then .err .Paused else
  match st.orders buy_id with
  | none => .err .OrderExpired
  | some buy =>
    match st.orders sell_id with
    | none => .err .OrderExpired
    | some sell =>
      if now > buy.expiry_ts ∨ now > sell.expiry_ts then .err .OrderExpired else
      let qty : Int := min |buy.qty| |sell.qty|
      match apply_fill st buy price qty with
      | none => .panic
      | some st1 =>
        match apply_fill st1 sell price qty with
        | none => .panic
        | some st2 =>
          let maker_is_buy := buy_id < sell_id
          let notional : Nat := price.natAbs * qty.natAbs
          let maker_fee := notional * st.maker_fee_bps / 10000
          let taker_fee := notional * st.taker_fee_bps / 10000
          let total := maker_fee + taker_fee
          let accrued := st2.accrued_fees
          .ok { st2 with
                accrued_fees := accrued + total,
                events := st2.events ++
                  [.feeAccrued maker_fee taker_fee,
                   .tradeEv buy.trader sell.trader price qty],
                orders := setOrder (setOrder st2.orders buy_id none) sell_id none }

/-- From `lib.rs::settle_expired`: if the position is empty do nothing,
else realize PnL into collateral (clamped at zero), zero the position and
release all locked margin. -/
def settle_expired (st : ContractState) (trader : Nat) (mark_price : Int) :
    ContractState :=
  let qty := st.position_qty trader
  if qty = 0 then st else
  let entry := st.position_entry trader
  let pnl := (mark_price - entry) * qty
  let coll : Int := (st.collateral trader : Int) + pnl
  { st with collateral := setNat st.collateral trader
              (if coll < 0 then 0 else coll.toNat),
            position_qty := setInt st.position_qty trader 0,
            locked_margin := setNat st.locked_margin trader 0 }

/-- Sentinel returned by `margin_health` when no margin is locked
(`u128::MAX`). -/
def U128_MAX : Nat := 2 ^ 128 - 1

/-- From `lib.rs::margin_health`: `u128::MAX` when `locked == 0`; else
`equity = collateral + pnl - locked`, returning `0` when `equity ≤ 0` and
`(equity * 10_000) / locked` (i128 truncating division) otherwise. -/
def margin_health (st : ContractState) (trader : Nat) (mark_price : Int) : Nat :=
  let coll : Int := (st.collateral trader : Int)
  let locked : Int := (st.locked_margin trader : Int)
  let qty := st.position_qty trader
  if locked = 0 then U128_MAX else
  let entry := st.position_entry trader
  let pnl := (mark_price - entry) * qty
  let equity := coll + pnl - locked
  if equity ≤ 0 then 0 else
  (Int.tdiv (equity * 10000) locked).toNat

/-- From `lib.rs::try_liquidate`: force-settle and emit a `LiquidationEvent`
when health is below the threshold. -/
def try_liquidate (st : ContractState) (trader : Nat) (mark_price : Int) :
    ContractState :=
  let health_bps := margin_health st trader mark_price
  if health_bps < st.liquidation_threshold_bps then
    let st1 := settle_expired st trader mark_price
    { st1 with events := st1.events ++ [.liquidationEv trader mark_price] }
  else st

/-- From `lib.rs::batch_liquidate`: fold `try_liquidate` over the list. -/
def batch_liquidate (st : ContractState) (traders : List Nat) (mark_price : Int) :
    ContractState :=
  traders.foldl (fun s t => try_liquidate s t mark_price) st

/-- One external call of the operation set named by the solvency claim. -/
inductive COp where
  | depositOp (trader amount : Nat)
  | withdrawOp (trader amount : Nat)
  | placeOrderOp (trader side : Nat) (price qty : Int) (leverage now : Nat)
  | matchOp (buy_id sell_id : Nat) (price : Int) (now : Nat)
  | liquidateOp (trader : Nat) (mark : Int)

/-- Dispatch one external call; errors and panics revert to the pre-state
(`ext_liquidate` has no failure path in the source). -/
def stepOp (st : ContractState) : COp → ContractState
  | .depositOp t a => commit st (deposit st t a)
  | .withdrawOp t a => commit st (withdraw st t a)
  | .placeOrderOp t s p q l now => commit st (place_order st t s p q l now)
  | .matchOp b s p now => commit st (match_orders st b s p now)
  | .liquidateOp t m => try_liquidate st t m

/-- Post-`init` contract state (`lib.rs::init` defaults, empty storage). -/
def initState : ContractState :=
  { paused := false, next_order_id := 0,
    collateral := fun _ => 0, locked_margin := fun _ => 0,
    orders := fun _ => none,
    position_qty := fun _ => 0, position_entry := fun _ => 0,
    default_expiry_secs := 86400, liquidation_threshold_bps := 5000,
    maker_fee_bps := 2, taker_fee_bps := 5,
    accrued_fees := 0, events := [] }

/-- Run a sequence of external calls from a given state. -/
def runOps (st : ContractState) (ops : List COp) : ContractState :=
  ops.foldl stepOp st

/-- Solvency: every account's locked margin is covered by its collateral. -/
def SolvencyInv (st : ContractState) : Prop :=
  ∀ t, st.locked_margin t ≤ st.collateral t

end ZDF

namespace MX

/-- Point update of a `Nat`-keyed hash map (`HashMap::insert`). -/
def setM {α : Type} (m : Nat → Option α) (k : Nat) (v : α) : Nat → Option α :=
  fun k' => if k' = k then some v else m k'

/-- Mirror events sent on the websocket by `main.rs::handle_ws` (the oracle
tick is transport-level and not modelled). -/
inductive MEvent where
  | matchEv (price qty : Int) (buy_trader sell_trader : Nat)
      (maker_fee taker_fee : Int) (buy_id sell_id : Nat)
  | liquidationEv (trader : Nat) (mark : Int)
  deriving DecidableEq, Repr

/-- Shared mutable state of the matcher process, from `main.rs::AppState`
(the chain client handle is replaced by the per-sweep propagation outcome). -/
structure MState where
  buys : List (Nat × Order)
  sells : List (Nat × Order)
  accounts : Nat → Option Account
  positions : Nat → Option Position
  oracle : OraclePrice
  maker_bps : Nat
  taker_bps : Nat
  nonces : Nat → Option Nat

/-- Initial `AppState` built in `main.rs::main`: empty books and maps,
oracle at 100, fees `(2, 5)`. -/
def initState : MState :=
  { buys := [], sells := [],
    accounts := fun _ => none, positions := fun _ => none,
    oracle := { price := 100, conf := 0, ts := 0 },
    maker_bps := 2, taker_bps := 5,
    nonces := fun _ => none }

/-- From `main.rs::deposit`: credit collateral, creating the account if
absent (`entry … and_modify … or_insert`). -/
def mirror_deposit (st : MState) (trader : Nat) (amount : Int) : MState :=
  let acc := match st.accounts trader with
    | some a => { a with collateral := a.collateral + amount }
    | none => { collateral := amount, locked_margin := 0 }
  { st with accounts := setM st.accounts trader acc }

/-- From `main.rs::withdraw`: succeed iff the trader exists and
`collateral - locked_margin ≥ amount`. -/
def mirror_withdraw (st : MState) (trader : Nat) (amount : Int) : MState × Bool :=
  match st.accounts trader with
  | some acc =>
      if acc.collateral - acc.locked_margin ≥ amount then
        let acc' := { acc with collateral := acc.collateral - amount }
        ({ st with accounts := setM st.accounts trader acc' }, true)
      else (st, false)
  | none => (st, false)

/-- Margin locked by `main.rs::place_order`:
`if leverage == 0 { notional } else { notional / leverage }` with
`notional = price.abs() * qty.abs()`. -/
def mirror_margin (price qty : Int) (leverage : Nat) : Int :=
  let notional := |price| * |qty|
  if leverage = 0 then notional else Int.tdiv notional (leverage : Int)

/-- From `main.rs::place_order` (chain inactive): build the order with
`now = 0`, lock the margin — creating the account with zero collateral if
absent, with no affordability check — assign the fallback local id
`buys.len + sells.len + 1`, and append to the matching side. -/
def mirror_place_order (st : MState) (trader : Nat) (side : Side)
    (price qty : Int) (leverage ttl_secs : Nat) (lim : Bool) : MState × Nat :=
  let now : Nat := 0
  let exp := now + ttl_secs
  let order : Order :=
    { trader := trader, side := side, price := price, qty := qty,
      leverage := leverage, ts := now, expiry_ts := exp, is_limit := lim }
  let margin := mirror_margin price qty leverage
  let acc := match st.accounts trader with
    | some a => { a with locked_margin := a.locked_margin + margin }
    | none => { collateral := 0, locked_margin := margin }
  let st1 := { st with accounts := setM st.accounts trader acc }
  let final_id := st1.buys.length + st1.sells.length + 1
  if side = Side.buy then
    ({ st1 with buys := st1.buys ++ [(final_id, order)] }, final_id)
  else
    ({ st1 with sells := st1.sells ++ [(final_id, order)] }, final_id)

/-- Fee book-keeping from `main.rs::handle_ws`: the buyer's collateral is
debited the taker fee and the seller's the maker fee, accounts being created
at a negative collateral if absent. -/
def debit_fees (st : MState) (buy_trader sell_trader : Nat)
    (taker_fee maker_fee : Int) : MState :=
  let a1 := match st.accounts buy_trader with
    | some a => { a with collateral := a.collateral - taker_fee }
    | none => { collateral := -taker_fee, locked_margin := 0 }
  let st1 := { st with accounts := setM st.accounts buy_trader a1 }
  let a2 := match st1.accounts sell_trader with
    | some a => { a with collateral := a.collateral - maker_fee }
    | none => { collateral := -maker_fee, locked_margin := 0 }
  { st1 with accounts := setM st1.accounts sell_trader a2 }

/-- Buyer position update from `main.rs::handle_ws`: flat ⇒ reset entry to 0;
opening ⇒ entry is the trade price; otherwise notional-weighted average. -/
def update_buyer_position (st : MState) (buy : Order) (price qty : Int) : MState :=
  let pb := match st.positions buy.trader with
    | some p => p
    | none => { trader := buy.trader, entry_price := price, qty := 0,
                leverage := buy.leverage, margin := 0, opened_ts := 0,
                expiry_ts := 86400 }
  let new_qty_b := pb.qty + qty
  let pb' :=
    if new_qty_b = 0 then { pb with entry_price := 0, qty := 0 }
    else if pb.qty = 0 then { pb with entry_price := price, qty := new_qty_b }
    else { pb with
           entry_price := Int.tdiv (pb.entry_price * pb.qty + price * qty) new_qty_b,
           qty := new_qty_b }
  { st with positions := setM st.positions buy.trader pb' }

/-- Seller position update from `main.rs::handle_ws`, symmetric to the buyer
with quantity `-qty`. -/
def update_seller_position (st : MState) (sell : Order) (price qty : Int) : MState :=
  let ps := match st.positions sell.trader with
    | some p => p
    | none => { trader := sell.trader, entry_price := price, qty := 0,
                leverage := sell.leverage, margin := 0, opened_ts := 0,
                expiry_ts := 86400 }
  let new_qty_s := ps.qty - qty
  let ps' :=
    if new_qty_s = 0 then { ps with entry_price := 0, qty := 0 }
    else if ps.qty = 0 then { ps with entry_price := price, qty := new_qty_s }
    else { ps with
           entry_price := Int.tdiv (ps.entry_price * ps.qty + price * (-qty)) new_qty_s,
           qty := new_qty_s }
  { st with positions := setM st.positions sell.trader ps' }

/-- Sentinel `i128::MAX` used in the mirror's (dead) zero-lock branch. -/
def I128_MAX : Int := 2 ^ 127 - 1

/-- Post-match liquidation check for one trader, from `main.rs::handle_ws`:
only traders with a nonzero position and positive locked margin are
considered; below 5000 bps the PnL is realized into collateral (unclamped),
locked margin is released and the position quantity zeroed. -/
def liquidation_check (st : MState) (who : Nat) (mark : Int) : MState × List MEvent :=
  let qe := match st.positions who with
    | some p => (p.qty, p.entry_price)
    | none => ((0 : Int), (0 : Int))
  let qty_w := qe.1
  let entry_w := qe.2
  if qty_w ≠ 0 then
    let pnl := (mark - entry_w) * qty_w
    let cl := match st.accounts who with
      | some a => (a.collateral, a.locked_margin)
      | none => ((0 : Int), (0 : Int))
    let collateral := cl.1
    let locked := cl.2
    if locked > 0 then
      let equity := collateral + pnl - locked
      let health_bps := if locked = 0 then I128_MAX else Int.tdiv (equity * 10000) locked
      if health_bps < 5000 then
        let st1 := { st with accounts := match st.accounts who with
                       | some a => setM st.accounts who
                           { a with collateral := a.collateral + pnl, locked_margin := 0 }
                       | none => st.accounts }
        let st2 := { st1 with positions := match st1.positions who with
                       | some p => setM st1.positions who { p with qty := 0 }
                       | none => st1.positions }
        (st2, [.liquidationEv who mark])
      else (st, [])
    else (st, [])
  else (st, [])

/-- Outcome of the settlement-propagation attempt for one sweep cycle:
the local (chain-inactive build) mode where `matched_ok` stays `true`, a
successful on-chain call, or a failed/reverted/inactive one. -/
inductive PropOutcome where
  | localOk
  | chainOk
  | chainFail
  deriving DecidableEq, Repr

/-- Whether the cycle's `matched_ok` flag ends up `true`. -/
def outcome_ok : PropOutcome → Bool
  | .localOk => true
  | .chainOk => true
  | .chainFail => false

/-- One iteration of the matching sweep in `main.rs::handle_ws`: if both
heads exist, compute midpoint price and `min` quantity, debit fees and update
both positions, then — only if propagation succeeded — pop both heads, emit
the match event and run the liquidation checks; on failure leave the book
untouched and emit nothing (retry next cycle). -/
def sweep_step (st : MState) (prop : PropOutcome) : MState × List MEvent :=
  let current_mark := st.oracle.price
  match st.buys.head?, st.sells.head? with
  | some (buy_id, buy), some (sell_id, sell) =>
      let price := Int.tdiv (buy.price + sell.price) 2
      let qty := min buy.qty sell.qty
      let notional := |price| * |qty|
      let maker_fee := Int.tdiv (notional * (st.maker_bps : Int)) 10000
      let taker_fee := Int.tdiv (notional * (st.taker_bps : Int)) 10000
      let st1 := debit_fees st buy.trader sell.trader taker_fee maker_fee
      let st2 := update_buyer_position st1 buy price qty
      let st3 := update_seller_position st2 sell price qty
      if outcome_ok prop then
        let st4 := { st3 with buys := st3.buys.tail, sells := st3.sells.tail }
        let ev0 := [MEvent.matchEv price qty buy.trader sell.trader
                      maker_fee taker_fee buy_id sell_id]
        let r1 := liquidation_check st4 buy.trader current_mark
        let r2 := liquidation_check r1.1 sell.trader current_mark
        (r2.1, ev0 ++ r1.2 ++ r2.2)
      else (st3, [])
  | _, _ => (st, [])

/-- Saturation bound of `main.rs::clamp_i128_to_i64`. -/
def I64_MAX : Int := 2 ^ 63 - 1

/-- Saturation bound of `main.rs::clamp_i128_to_i64`. -/
def I64_MIN : Int := -(2 ^ 63)

/-- From `main.rs::clamp_i128_to_i64`. -/
def clamp_i128_to_i64 (v : Int) : Int :=
  if v > I64_MAX then I64_MAX else if v < I64_MIN then I64_MIN else v

/-- From `main.rs::compute_health_and_pnl`: the snapshot's PnL and
basis-point health; `none` when no margin is locked, otherwise the truncated
quotient `(equity * 10_000) / locked`, saturated to `i64` — with no clamp at
zero. -/
def compute_health_and_pnl (acc : Account) (pos : Option Position) (mark : Int) :
    Int × Option Int :=
  let qe := match pos with
    | some p => (p.qty, p.entry_price)
    | none => ((0 : Int), (0 : Int))
  let qty := qe.1
  let entry := qe.2
  let pnl_i128 := (mark - entry) * qty
  let equity_i128 := acc.collateral + pnl_i128 - acc.locked_margin
  let pnl := clamp_i128_to_i64 pnl_i128
  let health_bps :=
    if acc.locked_margin = 0 then none
    else some (clamp_i128_to_i64 (Int.tdiv (equity_i128 * 10000) acc.locked_margin))
  (pnl, health_bps)

/-- Result of a signed-order submission, from `main.rs::place_signed_order`.
All signature-pipeline rejections (typed-data build, digest, hex decode,
length, parse, recover, address mismatch) are collapsed into `sigReject`;
they share the same state effects. -/
inductive SignedResult where
  | badNonce (expected : Nat)
  | sigReject
  | accepted (id : Nat)
  deriving DecidableEq, Repr

/-- From `main.rs::place_signed_order`: step 1 checks the nonce against the
stored one (`unwrap_or(0)`) and increments it on success *before* the
signature pipeline runs; a pipeline failure (modelled by `sig_ok = false`)
rejects with the nonce already bumped; on success the order is delegated to
`place_order`. -/
def place_signed_order (st : MState) (trader : Nat) (side : Side)
    (price qty : Int) (leverage ttl_secs : Nat) (lim : Bool)
    (nonce : Nat) (sig_ok : Bool) : MState × SignedResult :=
  let cur := (st.nonces trader).getD 0
  if nonce ≠ cur then (st, .badNonce cur)
  else
    let st1 := { st with nonces := setM st.nonces trader (cur + 1) }
    if sig_ok then
      let r := mirror_place_order st1 trader side price qty leverage ttl_secs lim
      (r.1, .accepted r.2)
    else (st1, .sigReject)

end MX

/-!
Concrete states used to evaluate the definitions on explicit inputs.
-/

/-- Contract state reached by `deposit(0, 100)` then
`place_order(0, Buy, price 100, qty 1, leverage 1)` at time 0: trader 0 has
collateral 100, locked margin 100 and no position. -/
def c4St : ZDF.ContractState :=
  ZDF.runOps ZDF.initState
    [ZDF.COp.depositOp 0 100, ZDF.COp.placeOrderOp 0 0 100 1 1 0]

/-- Contract state with trader 0 long 5 at entry 100, collateral 100 and
locked margin 100 — under water at mark 50. -/
def c4LiqSt : ZDF.ContractState :=
  { ZDF.initState with
    collateral := fun t => if t = 0 then 100 else 0,
    locked_margin := fun t => if t = 0 then 100 else 0,
    position_qty := fun t => if t = 0 then 5 else 0,
    position_entry := fun t => if t = 0 then 100 else 0 }

/-- Contract state reached by funding traders 0 and 1 and placing a buy
(id 1) and a sell (id 2) at time 0; both orders expire at 86400. -/
def c5St : ZDF.ContractState :=
  ZDF.runOps ZDF.initState
    [ZDF.COp.depositOp 0 1000, ZDF.COp.depositOp 1 1000,
     ZDF.COp.placeOrderOp 0 0 100 1 1 0, ZDF.COp.placeOrderOp 1 1 100 1 1 0]

/-- The buy order admitted first into the mirror book by `mkBook`. -/
def mkBuyOrd (ttl : Nat) : Order :=
  { trader := 0, side := Side.buy, price := 102, qty := 50, leverage := 1,
    ts := 0, expiry_ts := ttl, is_limit := true }

/-- The sell order admitted second into the mirror book by `mkBook`. -/
def mkSellOrd (ttl : Nat) : Order :=
  { trader := 1, side := Side.sell, price := 98, qty := 80, leverage := 1,
    ts := 0, expiry_ts := ttl, is_limit := true }

/-- Mirror state holding one buy (102 × 50, id 1) and one sell (98 × 80,
id 2), both with the given time-to-live. -/
def mkBook (ttl : Nat) : MX.MState :=
  (MX.mirror_place_order
    (MX.mirror_place_order MX.initState 0 Side.buy 102 50 1 ttl true).1
    1 Side.sell 98 80 1 ttl true).1

/-- Buy order stored by the contract for the fee example. -/
def c7b : ZDF.COrder :=
  { trader := 0, side := Side.buy, price := 102, qty := 50, leverage := 1,
    expiry_ts := 86400 }

/-- Sell order stored by the contract for the fee example. -/
def c7s : ZDF.COrder :=
  { trader := 1, side := Side.sell, price := 98, qty := 80, leverage := 1,
    expiry_ts := 86400 }

/-- Contract state with both fee-example orders resting and both traders
funded at 1000 collateral. -/
def c7St : ZDF.ContractState :=
  { ZDF.initState with
    collateral := fun t => if t = 0 ∨ t = 1 then 1000 else 0,
    orders := fun k => if k = 1 then some c7b else
      if k = 2 then some c7s else none }

/-- The state left by the successful fee-example match. -/
def c7StAfter : ZDF.ContractState :=
  ZDF.commit c7St (ZDF.match_orders c7St 1 2 100 0)

/-- Contract state in which trader 0 is short 5 units, with a buy (id 1,
qty 5, by trader 0) and a sell (id 2, qty 5, by trader 1) resting. -/
def c10St : ZDF.ContractState :=
  { ZDF.initState with
    orders := fun k =>
      if k = 1 then some { trader := 0, side := Side.buy, price := 100,
                           qty := 5, leverage := 1, expiry_ts := 1000 } else
      if k = 2 then some { trader := 1, side := Side.sell, price := 100,
                           qty := 5, leverage := 1, expiry_ts := 1000 } else none,
    position_qty := fun t => if t = 0 then -5 else 0 }

/-!
Helper lemmas shared by the claim theorems.
-/

/-- A fill that returns normally changes only the position maps. -/
theorem apply_fill_some_frame (st : ZDF.ContractState) (o : ZDF.COrder)
    (p q : Int) (st₁ : ZDF.ContractState)
    (h : ZDF.apply_fill st o p q = some st₁) :
    st₁.collateral = st.collateral ∧ st₁.locked_margin = st.locked_margin ∧
    st₁.accrued_fees = st.accrued_fees ∧ st₁.events = st.events ∧
    st₁.orders = st.orders ∧ st₁.maker_fee_bps = st.maker_fee_bps ∧
    st₁.taker_fee_bps = st.taker_fee_bps := by
  simp only [ZDF.apply_fill] at h
  split_ifs at h <;> simp_all <;> (rw [← h]; exact ⟨rfl, rfl, rfl, rfl, rfl, rfl, rfl⟩)

/-- Order admission through `mirror_place_order` never touches the nonce
map. -/
theorem mirror_place_order_nonces (st : MX.MState) (trader : Nat) (side : Side)
    (price qty : Int) (leverage ttl : Nat) (lim : Bool) :
    (MX.mirror_place_order st trader side price qty leverage ttl lim).1.nonces
      = st.nonces := by
  simp only [MX.mirror_place_order]
  split <;> rfl

/-!
Claim theorems.
-/

/-- C9: `required_margin(qty, price, leverage)` equals
`(|qty| × |price|) / max(leverage, 1)` under truncating integer division; the
off-chain admission path computes the same margin (leverage 0 treated as 1,
no division by zero), and `required_margin(1000, 100, 10) = 10000`. -/
theorem C9_required_margin :
    (∀ (qty price : Int) (leverage : Nat),
        required_margin qty price leverage =
          Int.tdiv (|qty| * |price|) (max (leverage : Int) 1) ∧
        MX.mirror_margin price qty leverage = required_margin qty price leverage) ∧
    required_margin 1000 100 10 = 10000 := by
  constructor
  · intro q p l
    refine ⟨rfl, ?_⟩
    unfold MX.mirror_margin required_margin
    by_cases h : l = 0
    · subst h
      simp [mul_comm]
    · have h1 : (1 : Int) ≤ (l : Int) := by exact_mod_cast Nat.one_le_iff_ne_zero.mpr h
      have hmax : max ((l : Int)) 1 = (l : Int) := by omega
      simp [h, hmax, mul_comm]
  · decide

/-- C10 (amended): the entry-price divisor of `apply_fill` is zero exactly
when the trader holds a nonzero position exactly opposite to the fill
quantity (`pos_qty = −qty ≠ 0`); in that case the fill panics with a
division by zero, contrary to the claim that the step is total. -/
theorem C10_divisor_zero_iff (st : ZDF.ContractState) (order : ZDF.COrder)
    (price qty : Int) :
    ZDF.apply_fill st order price qty = none ↔
      st.position_qty order.trader ≠ 0 ∧
      st.position_qty order.trader + qty = 0 := by
  simp only [ZDF.apply_fill]
  split_ifs with h1 h2 <;> simp_all

/-- C10 counterexample: trader 0 is short 5 (`pos_qty = −5 ≠ 0`); matching a
buy fill of quantity 5 for trader 0 makes the divisor `pos_qty + qty = 0`,
and `match_orders` hits the division-by-zero panic. -/
theorem C10_counterexample :
    c10St.position_qty 0 = -5 ∧ (-5 : Int) ≠ 0 ∧
    ZDF.match_orders c10St 1 2 100 0 = ZDF.CallResult.panic := by
  refine ⟨rfl, by decide, rfl⟩

/-- C6 (amended): the contract's basis-point `margin_health` returns the
`u128::MAX` sentinel when no margin is locked and otherwise the
floor-rounded quotient `(equity × 10_000) / locked` clamped below at 0
(`/` here is mathematical floor division). -/
theorem C6_margin_health_floor_clamp (st : ZDF.ContractState) (trader : Nat)
    (mark : Int) :
    ZDF.margin_health st trader mark =
      if st.locked_margin trader = 0 then ZDF.U128_MAX
      else
        Int.toNat (max 0 ((((st.collateral trader : Int) +
          (mark - st.position_entry trader) * st.position_qty trader -
          (st.locked_margin trader : Int)) * 10000) /
            (st.locked_margin trader : Int))) := by
  unfold ZDF.margin_health
  by_cases h0 : st.locked_margin trader = 0
  · simp [h0]
  · have hlock : (0 : Int) < (st.locked_margin trader : Int) := by
      exact_mod_cast Nat.pos_of_ne_zero h0
    have hcast : ((st.locked_margin trader : Int)) ≠ 0 := by omega
    simp only [hcast, if_false, h0]
    set equity := (st.collateral trader : Int) +
      (mark - st.position_entry trader) * st.position_qty trader -
      (st.locked_margin trader : Int) with hequity
    by_cases he : equity ≤ 0
    · have hnum : equity * 10000 ≤ 0 := by nlinarith
      have hdiv : equity * 10000 / (st.locked_margin trader : Int) ≤ 0 := by
        have := Int.ediv_le_ediv hlock hnum
        simpa using this
      simp [he, max_eq_left hdiv]
    · push_neg at he
      have hnum : (0 : Int) ≤ equity * 10000 := by positivity
      have htd : Int.tdiv (equity * 10000) (st.locked_margin trader : Int) =
          equity * 10000 / (st.locked_margin trader : Int) :=
        Int.tdiv_eq_ediv hnum (le_of_lt hlock)
      have hdiv : (0 : Int) ≤ equity * 10000 / (st.locked_margin trader : Int) :=
        Int.ediv_nonneg hnum (le_of_lt hlock)
      simp [not_le.mpr he, htd, max_eq_right hdiv]

/-- C6 counterexample: the off-chain snapshot variant
`compute_health_and_pnl` has no clamp at zero — an account with collateral 0
and locked margin 10000 and no position yields health −10000 bps, so the
basis-points variant *can* be negative, contrary to the claim. -/
theorem C6_counterexample :
    (MX.compute_health_and_pnl
        { collateral := 0, locked_margin := 10000 } none 100).2
      = some (-10000) ∧ (-10000 : Int) < 0 := by
  refine ⟨rfl, by decide⟩

/-- C8 (amended): a nonce-mismatch submission is rejected with no state
change at all; any submission that passes the nonce check has the stored
nonce incremented by exactly one *before* signature verification, so a
signature-rejected submission still mutates the nonce (though nothing else);
an accepted submission likewise increments the nonce by exactly one. -/
theorem C8_nonce_replay (st : MX.MState) (trader : Nat) (side : Side)
    (price qty : Int) (leverage ttl : Nat) (lim : Bool)
    (nonce : Nat) (sig_ok : Bool) :
    (nonce ≠ (st.nonces trader).getD 0 →
      MX.place_signed_order st trader side price qty leverage ttl lim nonce sig_ok
        = (st, MX.SignedResult.badNonce ((st.nonces trader).getD 0))) ∧
    (nonce = (st.nonces trader).getD 0 →
      (MX.place_signed_order st trader side price qty leverage ttl lim nonce
          sig_ok).1.nonces trader = some ((st.nonces trader).getD 0 + 1)) ∧
    (nonce = (st.nonces trader).getD 0 → sig_ok = false →
      (MX.place_signed_order st trader side price qty leverage ttl lim nonce
          sig_ok).2 = MX.SignedResult.sigReject ∧
      (MX.place_signed_order st trader side price qty leverage ttl lim nonce
          sig_ok).1.buys = st.buys ∧
      (MX.place_signed_order st trader side price qty leverage ttl lim nonce
          sig_ok).1.sells = st.sells ∧
      (MX.place_signed_order st trader side price qty leverage ttl lim nonce
          sig_ok).1.accounts = st.accounts ∧
      (MX.place_signed_order st trader side price qty leverage ttl lim nonce
          sig_ok).1.positions = st.positions) := by
  refine ⟨?_, ?_, ?_⟩
  · intro h
    simp [MX.place_signed_order, h]
  · intro h
    by_cases hs : sig_ok
    · simp [MX.place_signed_order, h, hs, mirror_place_order_nonces, MX.setM]
    · simp [MX.place_signed_order, h, hs, MX.setM]
  · intro h hs
    subst hs
    simp [MX.place_signed_order, h]

/-- C8 witness: at the fresh mirror state (stored nonce absent, read as 0),
nonce 1 is rejected without any change, and nonce 0 with a failing signature
leaves the stored nonce bumped to 1. -/
theorem C8_nonce_replay_witness :
    ((1 : Nat) ≠ (MX.initState.nonces 0).getD 0) ∧
    MX.place_signed_order MX.initState 0 Side.buy 100 1 1 60 true 1 true
      = (MX.initState, MX.SignedResult.badNonce 0) ∧
    (MX.place_signed_order MX.initState 0 Side.buy 100 1 1 60 true 0
        false).1.nonces 0 = some 1 ∧
    (MX.place_signed_order MX.initState 0 Side.buy 100 1 1 60 true 0
        false).2 = MX.SignedResult.sigReject := by
  refine ⟨by decide, ?_, ?_, ?_⟩
  · exact (C8_nonce_replay MX.initState 0 Side.buy 100 1 1 60 true 1 true).1
      (by decide)
  · exact (C8_nonce_replay MX.initState 0 Side.buy 100 1 1 60 true 0 false).2.1
      (by decide)
  · exact ((C8_nonce_replay MX.initState 0 Side.buy 100 1 1 60 true 0
      false).2.2 (by decide) rfl).1

/-- C8 counterexample: a submission with the *correct* nonce but a failing
signature is rejected, yet the stored nonce has already been incremented —
so a rejected operation does mutate state, contrary to the claim. -/
theorem C8_counterexample :
    (MX.place_signed_order MX.initState 0 Side.buy 100 1 1 60 true 0
        false).2 = MX.SignedResult.sigReject ∧
    (MX.place_signed_order MX.initState 0 Side.buy 100 1 1 60 true 0
        false).1.nonces 0 = some 1 ∧
    MX.initState.nonces 0 = none := by
  refine ⟨rfl, rfl, rfl⟩

/-- The post-match liquidation check never touches the order book. -/
theorem liquidation_check_books (st : MX.MState) (who : Nat) (mark : Int) :
    (MX.liquidation_check st who mark).1.buys = st.buys ∧
    (MX.liquidation_check st who mark).1.sells = st.sells := by
  simp only [MX.liquidation_check]
  split_ifs <;> exact ⟨rfl, rfl⟩

/-- C2: when both heads exist and the match is confirmed, the trade executes
at the integer midpoint `(buy.price + sell.price) / 2` (i128 division) with
quantity `min(|buy.qty|, |sell.qty|)`, and both head orders are removed in
full — the book becomes the two tails, re-queueing no residual — even when
the sizes differ.  The hypotheses `0 < qty` are the data-model invariant on
resting orders. -/
theorem C2_midpoint_match (st : MX.MState) (prop : MX.PropOutcome)
    (bid sid : Nat) (b s : Order)
    (hb : st.buys.head? = some (bid, b)) (hs : st.sells.head? = some (sid, s))
    (hok : MX.outcome_ok prop = true) (hbq : 0 < b.qty) (hsq : 0 < s.qty) :
    (MX.sweep_step st prop).2.head? = some (MX.MEvent.matchEv
      (Int.tdiv (b.price + s.price) 2) (min |b.qty| |s.qty|)
      b.trader s.trader
      (Int.tdiv (|Int.tdiv (b.price + s.price) 2| * |min b.qty s.qty|
        * (st.maker_bps : Int)) 10000)
      (Int.tdiv (|Int.tdiv (b.price + s.price) 2| * |min b.qty s.qty|
        * (st.taker_bps : Int)) 10000)
      bid sid) ∧
    (MX.sweep_step st prop).1.buys = st.buys.tail ∧
    (MX.sweep_step st prop).1.sells = st.sells.tail := by
  have habs : min |b.qty| |s.qty| = min b.qty s.qty := by
    rw [abs_of_pos hbq, abs_of_pos hsq]
  simp only [MX.sweep_step, hb, hs, hok, if_true, habs]
  refine ⟨rfl, ?_, ?_⟩
  · rw [(liquidation_check_books _ _ _).1, (liquidation_check_books _ _ _).1]
    rfl
  · rw [(liquidation_check_books _ _ _).2, (liquidation_check_books _ _ _).2]
    rfl

/-- C2 witness: the spec's own example — buy(102) × 50 against sell(98) × 80
crosses at price 100 for quantity 50, and both orders leave the book in full
despite the 30-unit residual on the sell side. -/
theorem C2_midpoint_match_witness :
    (MX.sweep_step (mkBook 60) MX.PropOutcome.localOk).2.head?
      = some (MX.MEvent.matchEv 100 50 0 1 1 2 1 2) ∧
    (MX.sweep_step (mkBook 60) MX.PropOutcome.localOk).1.buys = [] ∧
    (MX.sweep_step (mkBook 60) MX.PropOutcome.localOk).1.sells = [] := by
  have h := C2_midpoint_match (mkBook 60) MX.PropOutcome.localOk 1 2
    (mkBuyOrd 60) (mkSellOrd 60) rfl rfl rfl (by decide) (by decide)
  refine ⟨?_, ?_, ?_⟩
  · rw [h.1]; rfl
  · rw [h.2.1]; rfl
  · rw [h.2.2]; rfl

/-- C3: matched heads are removed from the book only after propagation
succeeds.  On a failed propagation the sweep pops nothing and emits nothing:
both matched orders remain resting at the heads, so the very same match is
what the next cycle retries; on a successful propagation both heads are
popped. -/
theorem C3_removal_after_propagation (st : MX.MState) (bid sid : Nat)
    (b s : Order)
    (hb : st.buys.head? = some (bid, b)) (hs : st.sells.head? = some (sid, s)) :
    (MX.sweep_step st MX.PropOutcome.chainFail).1.buys = st.buys ∧
    (MX.sweep_step st MX.PropOutcome.chainFail).1.sells = st.sells ∧
    (MX.sweep_step st MX.PropOutcome.chainFail).2 = [] ∧
    (MX.sweep_step st MX.PropOutcome.chainFail).1.buys.head? = some (bid, b) ∧
    (MX.sweep_step st MX.PropOutcome.chainFail).1.sells.head? = some (sid, s) ∧
    (MX.sweep_step st MX.PropOutcome.chainOk).1.buys = st.buys.tail ∧
    (MX.sweep_step st MX.PropOutcome.chainOk).1.sells = st.sells.tail := by
  have hfail : MX.outcome_ok MX.PropOutcome.chainFail = false := rfl
  have hok : MX.outcome_ok MX.PropOutcome.chainOk = true := rfl
  refine ⟨?_, ?_, ?_, ?_, ?_, ?_, ?_⟩
  · simp only [MX.sweep_step, hb, hs, hfail, Bool.false_eq_true, if_false]
    rfl
  · simp only [MX.sweep_step, hb, hs, hfail, Bool.false_eq_true, if_false]
    rfl
  · simp only [MX.sweep_step, hb, hs, hfail, Bool.false_eq_true, if_false]
  · simp only [MX.sweep_step, hfail, Bool.false_eq_true, if_false]
    rw [hb, hs]
    exact hb
  · simp only [MX.sweep_step, hfail, Bool.false_eq_true, if_false]
    rw [hb, hs]
    exact hs
  · simp only [MX.sweep_step, hb, hs, hok, if_true]
    rw [(liquidation_check_books _ _ _).1, (liquidation_check_books _ _ _).1]
    rfl
  · simp only [MX.sweep_step, hb, hs, hok, if_true]
    rw [(liquidation_check_books _ _ _).2, (liquidation_check_books _ _ _).2]
    rfl

/-- C3 witness: on the two-order book, a failed propagation leaves both
orders resting with the same heads and emits nothing; a successful one pops
both. -/
theorem C3_removal_after_propagation_witness :
    (MX.sweep_step (mkBook 60) MX.PropOutcome.chainFail).1.buys
      = (mkBook 60).buys ∧
    (MX.sweep_step (mkBook 60) MX.PropOutcome.chainFail).2 = [] ∧
    (MX.sweep_step (mkBook 60) MX.PropOutcome.chainOk).1.buys = [] := by
  have h := C3_removal_after_propagation (mkBook 60) 1 2
    (mkBuyOrd 60) (mkSellOrd 60) rfl rfl
  refine ⟨h.1, h.2.2.1, ?_⟩
  · rw [h.2.2.2.2.2.1]; rfl

/-- C4 (amended): a trader holding a *nonzero* position whose health is
below the liquidation threshold ends `try_liquidate` with `qty == 0` and
`locked_margin == 0` and exactly one Liquidation event appended; liquidation
is all-or-nothing — any `try_liquidate` call either leaves the trader with a
zero position or returns the state untouched, never a partial reduction.
(The nonzero-position hypothesis is forced: with `qty == 0` the settlement
early-returns and locked margin survives, see the counterexample.) -/
theorem C4_liquidation_closes_position (st : ZDF.ContractState) (trader : Nat)
    (mark : Int)
    (hq : st.position_qty trader ≠ 0)
    (hh : ZDF.margin_health st trader mark < st.liquidation_threshold_bps) :
    (ZDF.try_liquidate st trader mark).position_qty trader = 0 ∧
    (ZDF.try_liquidate st trader mark).locked_margin trader = 0 ∧
    (ZDF.try_liquidate st trader mark).events
      = st.events ++ [ZDF.CEvent.liquidationEv trader mark] ∧
    (∀ (st₂ : ZDF.ContractState) (t₂ : Nat) (m₂ : Int),
      (ZDF.try_liquidate st₂ t₂ m₂).position_qty t₂ = 0 ∨
      ZDF.try_liquidate st₂ t₂ m₂ = st₂) := by
  refine ⟨?_, ?_, ?_, ?_⟩
  · simp only [ZDF.try_liquidate]
    rw [if_pos hh]
    simp only [ZDF.settle_expired]
    rw [if_neg hq]
    simp [ZDF.setInt]
  · simp only [ZDF.try_liquidate]
    rw [if_pos hh]
    simp only [ZDF.settle_expired]
    rw [if_neg hq]
    simp [ZDF.setNat]
  · simp only [ZDF.try_liquidate]
    rw [if_pos hh]
    simp only [ZDF.settle_expired]
    rw [if_neg hq]
  · intro st₂ t₂ m₂
    simp only [ZDF.try_liquidate]
    by_cases hcond : ZDF.margin_health st₂ t₂ m₂ < st₂.liquidation_threshold_bps
    · rw [if_pos hcond]
      left
      simp only [ZDF.settle_expired]
      by_cases hq2 : st₂.position_qty t₂ = 0
      · rw [if_pos hq2]
        exact hq2
      · rw [if_neg hq2]
        simp [ZDF.setInt]
    · rw [if_neg hcond]
      right
      rfl

/-- C4 witness: trader 0 is long 5 at entry 100 with collateral 100 and
locked margin 100; at mark 50 the health is 0 bps, and liquidation fully
closes the position and releases all margin. -/
theorem C4_liquidation_closes_position_witness :
    (ZDF.try_liquidate c4LiqSt 0 50).position_qty 0 = 0 ∧
    (ZDF.try_liquidate c4LiqSt 0 50).locked_margin 0 = 0 ∧
    (ZDF.try_liquidate c4LiqSt 0 50).events
      = c4LiqSt.events ++ [ZDF.CEvent.liquidationEv 0 50] := by
  have h := C4_liquidation_closes_position c4LiqSt 0 50 (by decide) (by decide)
  exact ⟨h.1, h.2.1, h.2.2.1⟩

/-- C4 counterexample: reachable state (deposit 100; place order locking
margin 100, no position yet).  Health is 0 < 5000, the sweep step emits a
Liquidation event for trader 0, yet the trader ends it with
`locked_margin = 100 ≠ 0` — the claim that every below-threshold trader ends
with `locked_margin == 0` is false. -/
theorem C4_counterexample :
    ZDF.margin_health c4St 0 100 < c4St.liquidation_threshold_bps ∧
    (ZDF.try_liquidate c4St 0 100).locked_margin 0 = 100 ∧
    (ZDF.try_liquidate c4St 0 100).events.count
      (ZDF.CEvent.liquidationEv 0 100) = 1 := by
  refine ⟨by decide, by decide, by decide⟩

/-- C5 (amended): the contract rejects a cross in which either fetched head
is expired (`now > expiry_ts`) with an `OrderExpired` error and *no trade*,
but the orders are not removed — the whole call reverts, leaving both
resting.  (The off-chain sweep performs no expiry check at all, see the
counterexample.) -/
theorem C5_expired_cross_rejected (st : ZDF.ContractState)
    (buy_id sell_id : Nat) (price : Int) (now : Nat) (b s : ZDF.COrder)
    (hp : st.paused = false)
    (hb : st.orders buy_id = some b) (hs : st.orders sell_id = some s)
    (hexp : now > b.expiry_ts ∨ now > s.expiry_ts) :
    ZDF.match_orders st buy_id sell_id price now
      = ZDF.CallResult.err ZDF.ContractError.OrderExpired ∧
    ZDF.stepOp st (ZDF.COp.matchOp buy_id sell_id price now) = st ∧
    (ZDF.stepOp st (ZDF.COp.matchOp buy_id sell_id price now)).orders buy_id
      = some b ∧
    (ZDF.stepOp st (ZDF.COp.matchOp buy_id sell_id price now)).orders sell_id
      = some s := by
  have h1 : ZDF.match_orders st buy_id sell_id price now
      = ZDF.CallResult.err ZDF.ContractError.OrderExpired := by
    simp only [ZDF.match_orders, hp, Bool.false_eq_true, if_false, hb, hs]
    rw [if_pos hexp]
  have h2 : ZDF.stepOp st (ZDF.COp.matchOp buy_id sell_id price now) = st := by
    simp [ZDF.stepOp, h1, ZDF.commit]
  exact ⟨h1, h2, by rw [h2]; exact hb, by rw [h2]; exact hs⟩

/-- C5 witness: in the reachable state `c5St` both orders expire at 86400;
matching at time 100000 errors with `OrderExpired` and the call leaves the
state exactly as it was. -/
theorem C5_expired_cross_rejected_witness :
    ZDF.match_orders c5St 1 2 100 100000
      = ZDF.CallResult.err ZDF.ContractError.OrderExpired ∧
    ZDF.stepOp c5St (ZDF.COp.matchOp 1 2 100 100000) = c5St := by
  have h := C5_expired_cross_rejected c5St 1 2 100 100000
    { trader := 0, side := Side.buy, price := 100, qty := 1, leverage := 1,
      expiry_ts := 86400 }
    { trader := 1, side := Side.sell, price := 100, qty := 1, leverage := 1,
      expiry_ts := 86400 }
    rfl rfl rfl (Or.inl (by decide))
  exact ⟨h.1, h.2.1⟩

/-- C5 counterexample: the claim says an expired head is *removed* and
produces no trade.  On the contract, the expired cross errors but both
orders survive in the book; on the mirror, a book whose heads already
expired at admission (`expiry_ts = 0`) still produces a full trade event —
the sweep consults no clock at all. -/
theorem C5_counterexample :
    ZDF.match_orders c5St 1 2 100 100000
      = ZDF.CallResult.err ZDF.ContractError.OrderExpired ∧
    (ZDF.stepOp c5St (ZDF.COp.matchOp 1 2 100 100000)).orders 1 ≠ none ∧
    (ZDF.stepOp c5St (ZDF.COp.matchOp 1 2 100 100000)).orders 2 ≠ none ∧
    (mkBook 0).buys.head? = some (1, mkBuyOrd 0) ∧
    (mkBuyOrd 0).expiry_ts = 0 ∧
    (MX.sweep_step (mkBook 0) MX.PropOutcome.localOk).2.head?
      = some (MX.MEvent.matchEv 100 50 0 1 1 2 1 2) := by
  refine ⟨rfl, by decide, by decide, rfl, rfl, rfl⟩

/-- C7 (amended): on a successful cross the contract computes
`notional = |price| × |qty|` and maker/taker fees as `notional × bps / 10_000`
and accumulates *both* into the venue-owned accrued-fees counter, emitting
`FeeAccrued`; no trader's collateral or locked margin is touched — the fees
are **not** debited from the sides (the arrival-order maker flag is computed
but unused).  The off-chain mirror instead debits the taker fee from the
buyer's collateral and the maker fee from the seller's (never from locked
margin), regardless of arrival order. -/
theorem C7_fee_accounting (st : ZDF.ContractState) (buy_id sell_id : Nat)
    (price : Int) (now : Nat) (st' : ZDF.ContractState) (b s : ZDF.COrder)
    (hb : st.orders buy_id = some b) (hs : st.orders sell_id = some s)
    (hok : ZDF.match_orders st buy_id sell_id price now
      = ZDF.CallResult.ok st') :
    st'.accrued_fees = st.accrued_fees +
      (price.natAbs * (min |b.qty| |s.qty|).natAbs * st.maker_fee_bps / 10000 +
       price.natAbs * (min |b.qty| |s.qty|).natAbs * st.taker_fee_bps / 10000) ∧
    (∀ t, st'.collateral t = st.collateral t) ∧
    (∀ t, st'.locked_margin t = st.locked_margin t) ∧
    st'.events = st.events ++
      [ZDF.CEvent.feeAccrued
          (price.natAbs * (min |b.qty| |s.qty|).natAbs * st.maker_fee_bps / 10000)
          (price.natAbs * (min |b.qty| |s.qty|).natAbs * st.taker_fee_bps / 10000),
       ZDF.CEvent.tradeEv b.trader s.trader price (min |b.qty| |s.qty|)] ∧
    (∀ (mst : MX.MState) (bt sl : Nat) (tf mf : Int), bt ≠ sl →
      (((MX.debit_fees mst bt sl tf mf).accounts bt).getD
          { collateral := 0, locked_margin := 0 }).collateral
        = ((mst.accounts bt).getD
            { collateral := 0, locked_margin := 0 }).collateral - tf ∧
      (((MX.debit_fees mst bt sl tf mf).accounts sl).getD
          { collateral := 0, locked_margin := 0 }).collateral
        = ((mst.accounts sl).getD
            { collateral := 0, locked_margin := 0 }).collateral - mf ∧
      (((MX.debit_fees mst bt sl tf mf).accounts bt).getD
          { collateral := 0, locked_margin := 0 }).locked_margin
        = ((mst.accounts bt).getD
            { collateral := 0, locked_margin := 0 }).locked_margin ∧
      (((MX.debit_fees mst bt sl tf mf).accounts sl).getD
          { collateral := 0, locked_margin := 0 }).locked_margin
        = ((mst.accounts sl).getD
            { collateral := 0, locked_margin := 0 }).locked_margin) := by
  simp only [ZDF.match_orders, hb, hs] at hok
  by_cases hp : st.paused
  · simp [hp] at hok
  · rw [Bool.not_eq_true] at hp
    simp only [hp, Bool.false_eq_true, if_false] at hok
    split_ifs at hok
    split at hok
    · simp at hok
    · rename_i st1 hfill1
      split at hok
      · simp at hok
      · rename_i st2 hfill2
        obtain ⟨hc1, hl1, ha1, he1, ho1, hm1, ht1⟩ :=
          apply_fill_some_frame _ _ _ _ _ hfill1
        obtain ⟨hc2, hl2, ha2, he2, ho2, hm2, ht2⟩ :=
          apply_fill_some_frame _ _ _ _ _ hfill2
        injection hok with hok'
        subst hok'
        refine ⟨?_, ?_, ?_, ?_, ?_⟩
        · simp [ha2, ha1, Int.natAbs_mul]
        · intro t
          simp [congrFun hc2 t, congrFun hc1 t]
        · intro t
          simp [congrFun hl2 t, congrFun hl1 t]
        · simp [he2, he1, Int.natAbs_mul]
        · intro mst bt sl tf mf hne
          have hne' : ¬ (sl = bt) := fun h => hne h.symm
          cases hacb : mst.accounts bt <;> cases hacs : mst.accounts sl <;>
            simp [MX.debit_fees, MX.setM, hacb, hacs, hne, hne']

/-- C7 witness: matching buy(102)×50 against sell(98)×80 at price 100 in
`c7St` accrues `5000×2/10000 + 5000×5/10000 = 3` to the venue counter while
both traders' collateral stays at 1000. -/
theorem C7_fee_accounting_witness :
    ZDF.match_orders c7St 1 2 100 0 = ZDF.CallResult.ok c7StAfter ∧
    c7StAfter.accrued_fees = 3 ∧
    c7StAfter.collateral 0 = c7St.collateral 0 ∧
    c7StAfter.collateral 1 = c7St.collateral 1 := by
  have h := C7_fee_accounting c7St 1 2 100 0 c7StAfter c7b c7s rfl rfl rfl
  refine ⟨rfl, ?_, h.2.1 0, h.2.1 1⟩
  rw [h.1]
  decide

/-- C7 counterexample: a successful cross accrues strictly positive fees to
the venue counter yet leaves both sides' collateral untouched — the claimed
debit of maker/taker fees from the traders' collateral never happens on the
contract. -/
theorem C7_counterexample :
    ZDF.match_orders c7St 1 2 100 0 = ZDF.CallResult.ok c7StAfter ∧
    c7StAfter.accrued_fees = 3 ∧ 0 < (3 : Nat) ∧
    c7StAfter.collateral 0 = 1000 ∧ c7StAfter.collateral 1 = 1000 ∧
    c7St.collateral 0 = 1000 ∧ c7St.collateral 1 = 1000 := by
  refine ⟨rfl, by decide, by decide, by decide, by decide, by decide, by decide⟩

/-- A successful `match_orders` call never changes any collateral or locked
margin (fees go only to the venue's accrued counter). -/
theorem match_orders_balances (st : ZDF.ContractState) (buy_id sell_id : Nat)
    (price : Int) (now : Nat) (st' : ZDF.ContractState)
    (hok : ZDF.match_orders st buy_id sell_id price now
      = ZDF.CallResult.ok st') :
    st'.collateral = st.collateral ∧ st'.locked_margin = st.locked_margin := by
  simp only [ZDF.match_orders] at hok
  by_cases hp : st.paused
  · simp [hp] at hok
  · rw [Bool.not_eq_true] at hp
    simp only [hp, Bool.false_eq_true, if_false] at hok
    split at hok
    · simp at hok
    · split at hok
      · simp at hok
      · split_ifs at hok
        split at hok
        · simp at hok
        · rename_i st1 hfill1
          split at hok
          · simp at hok
          · rename_i st2 hfill2
            obtain ⟨hc1, hl1, _, _, _, _, _⟩ :=
              apply_fill_some_frame _ _ _ _ _ hfill1
            obtain ⟨hc2, hl2, _, _, _, _, _⟩ :=
              apply_fill_some_frame _ _ _ _ _ hfill2
            injection hok with hok'
            subst hok'
            exact ⟨by simp [hc2, hc1], by simp [hl2, hl1]⟩

/-- Every external call preserves solvency: deposits only grow collateral,
withdrawals and order placement are guarded, matching never touches
balances, and liquidation releases all margin while clamping collateral at
zero. -/
theorem stepOp_solvency (st : ZDF.ContractState) (op : ZDF.COp)
    (h : ZDF.SolvencyInv st) : ZDF.SolvencyInv (ZDF.stepOp st op) := by
  cases op with
  | depositOp t a =>
      simp only [ZDF.stepOp, ZDF.deposit]
      split_ifs with hp
      · exact h
      · intro x
        simp only [ZDF.commit, ZDF.setNat]
        have hx1 := h x
        have ht1 := h t
        split_ifs with hx
        · subst hx
          omega
        · omega
  | withdrawOp t a =>
      simp only [ZDF.stepOp, ZDF.withdraw]
      split_ifs with hp hlt
      · exact h
      · exact h
      · intro x
        simp only [ZDF.commit, ZDF.setNat]
        have hx1 := h x
        have ht1 := h t
        split_ifs with hx
        · subst hx
          omega
        · omega
  | placeOrderOp t sd p q l now =>
      simp only [ZDF.stepOp, ZDF.place_order]
      split_ifs with hp hlt hsd <;> try exact h
      all_goals
        intro x
        simp only [ZDF.commit, ZDF.setNat]
        have hx1 := h x
        have ht1 := h t
        split_ifs with hx
        · subst hx
          omega
        · omega
  | matchOp b s p now =>
      simp only [ZDF.stepOp]
      cases hm : ZDF.match_orders st b s p now with
      | ok st' =>
          have hbal := match_orders_balances st b s p now st' hm
          intro x
          simp only [ZDF.commit, hbal.1, hbal.2]
          exact h x
      | err e => exact h
      | panic => exact h
  | liquidateOp t m =>
      intro x
      simp only [ZDF.stepOp, ZDF.try_liquidate]
      split_ifs with hcond
      · simp only [ZDF.settle_expired]
        split_ifs with hq hneg
        · exact h x
        all_goals
          simp only [ZDF.setNat, ZDF.setInt]
          split_ifs with hx
          · exact Nat.zero_le _
          · exact h x
      · exact h x

/-- Solvency is preserved along any run of external calls. -/
theorem runOps_solvency (ops : List ZDF.COp) (st : ZDF.ContractState)
    (h : ZDF.SolvencyInv st) : ZDF.SolvencyInv (ZDF.runOps st ops) := by
  induction ops generalizing st with
  | nil => exact h
  | cons op rest ih => exact ih (ZDF.stepOp st op) (stepOp_solvency st op h)

/-- C1 (amended): on the authoritative contract, every state reachable from
the initial state by any sequence of deposit / withdraw / place_order /
match / liquidate calls satisfies `collateral ≥ locked_margin` for every
account (liquidation itself is a single atomic call here).  The off-chain
mirror violates the invariant: its `place_order` locks margin with no
collateral check — see the counterexample. -/
theorem C1_solvency_invariant (ops : List ZDF.COp) :
    ZDF.SolvencyInv (ZDF.runOps ZDF.initState ops) :=
  runOps_solvency ops ZDF.initState (fun _ => Nat.le_refl 0)

/-- C1 counterexample: one reachable mirror operation breaks the invariant —
placing an order as a fresh trader creates the account with collateral 0 and
locked margin 100, so `collateral ≥ locked_margin` fails. -/
theorem C1_counterexample :
    (MX.mirror_place_order MX.initState 0 Side.buy 100 1 1 60 true).1.accounts 0
      = some { collateral := 0, locked_margin := 100 } ∧
    ¬ ((0 : Int) ≥ 100) := by
  refine ⟨rfl, by decide⟩
